import Mathlib

/-!
Shallow embedding of `numpy_dispatch/dummy.py`: the `__array_module__`
dispatch protocol, the fallback module machinery (`_ArrayFunctionFallback`,
`_FakeUfunc`, `_BoundFunction`) and the registration entry point
`inject_array_module`.

Python types, values and errors are modelled first-order; the hooks
`__array_ufunc__` and `__array_function__` are modelled as opaque-to-us Lean
functions carried by the owner instance.  Attribute access on adapter objects
is modelled by name where the source itself reads attributes by name, so that
a lookup of a never-assigned attribute (as the source does in three places)
surfaces as an AttributeError, exactly as in Python.
-/

/-- A Python type object.  `ndarray` is the default array type of the
default library; user-defined array types are distinguished by a number. -/
inductive PyType where
  | ndarray
  | userType (n : Nat)
deriving DecidableEq, Inhabited, Repr

/-- A Python value, as far as this protocol inspects values: a native array
of the default library, an instance of some owner array type, or any other
object.  The payload `data` abstracts the numeric contents, which the
dispatch layer never looks at. -/
inductive PyVal where
  | ndarr (data : Nat)
  | arrObj (ty : PyType) (data : Nat)
  | pyObj (data : Nat)
deriving DecidableEq, Inhabited, Repr

/-- The payload carried by a value. -/
def PyVal.dataOf : PyVal → Nat
  | .ndarr d => d
  | .arrObj _ d => d
  | .pyObj d => d

/-- The Python exceptions this code can raise, with their message. -/
inductive PyErr where
  | runtimeError (msg : String)
  | attributeError (msg : String)
  | valueError (msg : String)
deriving DecidableEq, Repr

/-- Keyword arguments: an ordered association of names to values. -/
abbrev KW := List (String × PyVal)

/-- `np.asarray` on a single value: any value is viewed as a native array
keeping its payload (external numpy behaviour, abstracted). -/
def npAsarray : PyVal → PyVal
  | .ndarr d => .ndarr d
  | .arrObj _ d => .ndarr d
  | .pyObj d => .ndarr d

/-- Calling a type object on a native array, as in `self.arrtypes[0](new)`
and as assumed valid by the docstring of `inject_array_module`: produces an
instance of that type wrapping the same payload. -/
def callTypeOn (t : PyType) (v : PyVal) : PyVal := .arrObj t v.dataOf

/-- `np.array(*args, **kwargs)` (external numpy behaviour, abstracted):
builds a fresh native array from the arguments. -/
def npArrayMk (args : List PyVal) (_kwargs : KW) : PyVal :=
  .ndarr ((args.map PyVal.dataOf).sum)

/-- `np.asarray(*args, **kwargs)` (external numpy behaviour, abstracted). -/
def npAsarrayMk (args : List PyVal) (_kwargs : KW) : PyVal :=
  .ndarr ((args.map PyVal.dataOf).sum)

/-- A ufunc of the default library: its name and declared input count
`nin`. -/
structure Ufunc where
  uname : String
  nin : Nat
deriving DecidableEq, Repr

/-- A non-ufunc function of the default library. -/
structure NpFunc where
  fname : String
deriving DecidableEq, Repr

/-- What classification of a symbol found in the default library namespace
can observe: either it is an instance of `np.ufunc`, or it is some other
attribute, which may or may not expose the `_implementation` marker used to
recognise `__array_function__`-dispatched functions. -/
inductive NpSymbol where
  | ufuncSym (u : Ufunc)
  | funcSym (f : NpFunc) (hasImplementationAttr : Bool)
deriving DecidableEq, Repr

/-- The arguments one `__array_ufunc__` hook invocation receives:
`(ufunc, method, types, args, kwargs)`. -/
structure UfuncHookArgs where
  ufunc : Ufunc
  method : String
  types : List PyType
  args : List PyVal
  kwargs : KW

/-- The arguments one `__array_function__` hook invocation receives:
`(func, types, args, kwargs)`. -/
structure FuncHookArgs where
  func : NpFunc
  types : List PyType
  args : List PyVal
  kwargs : KW

/-- An instance of an owner array type, carrying its type and its two
per-type dispatch hooks, modelled as abstract functions. -/
structure ArrInstance where
  ty : PyType
  arrayUfunc : UfuncHookArgs → PyVal
  arrayFunction : FuncHookArgs → PyVal

/-- A concrete module object, as can be passed to `inject_array_module`. -/
structure NpModule where
  mname : String
deriving DecidableEq, Repr

/-- The error message of `_FakeUfunc.prepare_args` on an argument-count
mismatch. -/
def arityMsg : String := "Fake array_module: only inputs can be arguments to ufuncs"

/-- `_FakeUfunc`: its `__init__` assigns exactly the attributes `ufunc`,
`arrtypes = (type(arrself),)` and `arrufunc = arrself.__array_ufunc__`. -/
structure FakeUfunc where
  ufunc : Ufunc
  arrtypes : List PyType
  arrufunc : UfuncHookArgs → PyVal

/-- `_FakeUfunc(ufunc, arrself)`. -/
def FakeUfunc.make (u : Ufunc) (arrself : ArrInstance) : FakeUfunc :=
  ⟨u, [arrself.ty], arrself.arrayUfunc⟩

/-- Attribute lookup of a hook-valued attribute on a `_FakeUfunc` instance.
Only `arrufunc` is ever assigned by `__init__`; looking up any other name
(the method bodies of `reduce`, `accumulate` and `outer` read `arrfunc`)
finds nothing and will raise AttributeError. -/
def FakeUfunc.getHookAttr (f : FakeUfunc) : String → Option (UfuncHookArgs → PyVal)
  | "arrufunc" => some f.arrufunc
  | _ => none

/-- `_FakeUfunc.prepare_args(args, nin=None)`: check the argument count
against `nin` (defaulting to the declared input count of the ufunc), then
coerce each argument with `np.asarray` followed by a call of the owner
type. -/
def FakeUfunc.prepare_args (f : FakeUfunc) (args : List PyVal) (nin? : Option Nat) :
    Except PyErr (List PyVal) :=
  let nin := nin?.getD f.ufunc.nin
  if args.length ≠ nin then
    .error (.runtimeError arityMsg)
  else
    .ok (args.map fun arg => callTypeOn f.arrtypes.headI (npAsarray arg))

/-- `_FakeUfunc.__call__`: prepare the arguments with the default arity,
then invoke the attribute `arrufunc` (present: it was assigned in
`__init__`). -/
def FakeUfunc.call (f : FakeUfunc) (args : List PyVal) (kwargs : KW) :
    Except PyErr PyVal := do
  let args2 ← f.prepare_args args none
  match f.getHookAttr "arrufunc" with
  | some h => pure (h ⟨f.ufunc, "__call__", f.arrtypes, args2, kwargs⟩)
  | none => throw (.attributeError "arrufunc")

/-- `_FakeUfunc.reduce`: prepare the arguments with `nin=1`, then invoke the
attribute `arrfunc` — which `__init__` never assigned. -/
def FakeUfunc.reduce (f : FakeUfunc) (args : List PyVal) (kwargs : KW) :
    Except PyErr PyVal := do
  let args2 ← f.prepare_args args (some 1)
  match f.getHookAttr "arrfunc" with
  | some h => pure (h ⟨f.ufunc, "reduce", f.arrtypes, args2, kwargs⟩)
  | none => throw (.attributeError "arrfunc")

/-- `_FakeUfunc.accumulate`: prepare the arguments with `nin=1`, then invoke
the attribute `arrfunc` — which `__init__` never assigned. -/
def FakeUfunc.accumulate (f : FakeUfunc) (args : List PyVal) (kwargs : KW) :
    Except PyErr PyVal := do
  let args2 ← f.prepare_args args (some 1)
  match f.getHookAttr "arrfunc" with
  | some h => pure (h ⟨f.ufunc, "accumulate", f.arrtypes, args2, kwargs⟩)
  | none => throw (.attributeError "arrfunc")

/-- `_FakeUfunc.outer`: prepare the arguments with the DEFAULT arity (the
source passes no `nin`), then invoke the attribute `arrfunc` — which
`__init__` never assigned. -/
def FakeUfunc.outer (f : FakeUfunc) (args : List PyVal) (kwargs : KW) :
    Except PyErr PyVal := do
  let args2 ← f.prepare_args args none
  match f.getHookAttr "arrfunc" with
  | some h => pure (h ⟨f.ufunc, "outer", f.arrtypes, args2, kwargs⟩)
  | none => throw (.attributeError "arrfunc")

/-- `_BoundFunction`: its `__init__` assigns `func`, `arrtypes` and
`arrfunction = arrself.__array_function__`; the `__call__` body reads the
same attribute names back, so they are plain fields. -/
structure BoundFunction where
  func : NpFunc
  arrtypes : List PyType
  arrfunction : FuncHookArgs → PyVal

/-- `_BoundFunction(function, arrself)`. -/
def BoundFunction.make (fn : NpFunc) (arrself : ArrInstance) : BoundFunction :=
  ⟨fn, [arrself.ty], arrself.arrayFunction⟩

/-- `_BoundFunction.__call__`: delegate unconditionally to the captured
hook; total, no check of any kind. -/
def BoundFunction.call (b : BoundFunction) (args : List PyVal) (kwargs : KW) : PyVal :=
  b.arrfunction ⟨b.func, b.arrtypes, args, kwargs⟩

/-- `_ArrayFunctionFallback`: its `__init__` assigns `__name__` and the
name-mangled private attribute `_ArrayFunctionFallback__self`. -/
structure ArrayFunctionFallback where
  name : String
  selfArr : ArrInstance

/-- What an attribute lookup on a fallback can produce. -/
inductive FallbackAttr where
  | fakeUfunc (f : FakeUfunc)
  | boundFunction (b : BoundFunction)

/-- `_ArrayFunctionFallback.__getattr__`: read the name from the default
library namespace `np` (AttributeError when absent), then classify: a ufunc
is wrapped in a `_FakeUfunc` bound to the stored owner instance, a symbol
carrying the `_implementation` marker is wrapped in a `_BoundFunction`, and
anything else raises AttributeError with the unsupported-function message. -/
def ArrayFunctionFallback.getattr (np : String → Option NpSymbol)
    (fb : ArrayFunctionFallback) (attr : String) : Except PyErr FallbackAttr :=
  match np attr with
  | none => .error (.attributeError attr)
  | some (.ufuncSym u) => .ok (.fakeUfunc (FakeUfunc.make u fb.selfArr))
  | some (.funcSym f true) => .ok (.boundFunction (BoundFunction.make f fb.selfArr))
  | some (.funcSym _ false) =>
      .error (.attributeError ("unsupported numpy function for " ++ fb.name))

/-- Calling whatever object an attribute lookup produced on one positional
argument, as `self.__arraytype_(arr)` would. -/
def FallbackAttr.call1 : FallbackAttr → PyVal → Except PyErr PyVal
  | .fakeUfunc f, v => f.call [v] []
  | .boundFunction b, v => .ok (b.call [v] [])

/-- `_ArrayFunctionFallback.array`: build `np.array(*args, **kwargs)`, then
evaluate `self.__arraytype_(arr)`.  Inside the class body the private name
`__arraytype_` mangles to `_ArrayFunctionFallback__arraytype_`, an attribute
`__init__` never assigned (it stored `_ArrayFunctionFallback__self`), so the
lookup falls through to `__getattr__`. -/
def ArrayFunctionFallback.array (np : String → Option NpSymbol)
    (fb : ArrayFunctionFallback) (args : List PyVal) (kwargs : KW) :
    Except PyErr PyVal := do
  let arr := npArrayMk args kwargs
  let at2 ← fb.getattr np "_ArrayFunctionFallback__arraytype_"
  at2.call1 arr

/-- `_ArrayFunctionFallback.asarray`: same shape as `array`, starting from
`np.asarray(*args, **kwargs)`. -/
def ArrayFunctionFallback.asarray (np : String → Option NpSymbol)
    (fb : ArrayFunctionFallback) (args : List PyVal) (kwargs : KW) :
    Except PyErr PyVal := do
  let arr := npAsarrayMk args kwargs
  let at2 ← fb.getattr np "_ArrayFunctionFallback__arraytype_"
  at2.call1 arr

/-- An owner array type as `inject_array_module` sees it: its identity, the
result of the two `hasattr` capability probes, and its `__module__` string
(used to name a synthesized fallback). -/
structure ArrClass where
  ty : PyType
  hasArrayUfunc : Bool
  hasArrayFunction : Bool
  moduleName : String

/-- What the installed `__array_module__` entry point can return: the
configured module, a freshly built fallback, or the NotImplemented
sentinel. -/
inductive ResolvedModule where
  | module (m : NpModule)
  | fallback (fb : ArrayFunctionFallback)
  | notImplemented

/-- True exactly on the NotImplemented sentinel. -/
def ResolvedModule.isNotImplemented : ResolvedModule → Bool
  | .notImplemented => true
  | _ => false

/-- The loop of the injected `__array_module__`: walk the operand types in
order; one that is neither the owner type nor a known type breaks out
(INCOMPATIBLE); falling off the end of the loop reaches the else clause
(COMPATIBLE). -/
def typesAllKnown (arrtype : PyType) (known : List PyType) : List PyType → Bool
  | [] => true
  | t :: ts =>
    if t = arrtype then typesAllKnown arrtype known ts
    else if t ∈ known then typesAllKnown arrtype known ts
    else false

/-- The closure `__array_module__(self, types)` that `inject_array_module`
installs on the owner type: on a compatible operand type tuple return the
configured module, or, when none was configured, a fresh fallback named
after the owner type and bound to the calling instance; otherwise return
NotImplemented. -/
def arrayModuleEntry (arrtype : ArrClass) (known : List PyType)
    (module? : Option NpModule) (self : ArrInstance) (types : List PyType) :
    ResolvedModule :=
  if typesAllKnown arrtype.ty known types then
    match module? with
    | some m => .module m
    | none => .fallback ⟨arrtype.moduleName, self⟩
  else
    .notImplemented

/-- `inject_array_module(arrtype, known_types, module=None)`: when no module
is given, probe the owner type for both capability hooks and raise
ValueError when one is missing; otherwise install the resolution entry
point. -/
def inject_array_module (arrtype : ArrClass) (known : List PyType)
    (module? : Option NpModule) :
    Except PyErr (ArrInstance → List PyType → ResolvedModule) :=
  match module? with
  | none =>
    if arrtype.hasArrayUfunc = false then
      .error (.valueError "Array type must support __array_ufunc__")
    else if arrtype.hasArrayFunction = false then
      .error (.valueError "Array type must support __array_function__")
    else
      .ok (arrayModuleEntry arrtype known none)
  | some m => .ok (arrayModuleEntry arrtype known (some m))

/-- A concrete fragment of the default library namespace, holding one
representative of each classification the fallback distinguishes: the
binary ufunc `add`, the unary ufunc `negative`, the
`__array_function__`-dispatched `concatenate`, and `newaxis` as a present
but unclassifiable symbol. -/
def npDefault : String → Option NpSymbol
  | "add" => some (.ufuncSym ⟨"add", 2⟩)
  | "negative" => some (.ufuncSym ⟨"negative", 1⟩)
  | "concatenate" => some (.funcSym ⟨"concatenate"⟩ true)
  | "newaxis" => some (.funcSym ⟨"newaxis"⟩ false)
  | _ => none

/-- The `add` ufunc of the default library. -/
def npAdd : Ufunc := ⟨"add", 2⟩

/-- A fixed elementwise-dispatch hook, for concrete instances. -/
def hookU0 : UfuncHookArgs → PyVal := fun _ => .pyObj 0

/-- A fixed function-dispatch hook, for concrete instances. -/
def hookF0 : FuncHookArgs → PyVal := fun _ => .pyObj 1

/-- A concrete owner instance of a user-defined array type. -/
def instA : ArrInstance := ⟨.userType 0, hookU0, hookF0⟩

/-- A concrete fallback bound to `instA`. -/
def fb0 : ArrayFunctionFallback := ⟨"numpy_dispatch.dummy", instA⟩

/-- A concrete owner class exposing both capability hooks. -/
def clsA : ArrClass := ⟨.userType 0, true, true, "numpy_dispatch.dummy"⟩

/-- A concrete owner class lacking the `__array_ufunc__` hook. -/
def clsNoUfunc : ArrClass := ⟨.userType 1, false, true, "m"⟩

/-- The loop of `__array_module__` accepts a type list exactly when every
member is the owner type or a known type. -/
theorem typesAllKnown_iff (a : PyType) (k : List PyType) (ts : List PyType) :
    typesAllKnown a k ts = true ↔ ∀ t ∈ ts, t = a ∨ t ∈ k := by
  induction ts with
  | nil => simp [typesAllKnown]
  | cons t ts ih =>
    by_cases h1 : t = a
    · simp [typesAllKnown, h1, ih]
    · by_cases h2 : t ∈ k
      · simp [typesAllKnown, h1, h2, ih]
      · simp [typesAllKnown, h1, h2]

/-- An argument-count mismatch makes `prepare_args` raise the RuntimeError
with the arity message. -/
theorem prepare_args_wrong_count (f : FakeUfunc) (args : List PyVal)
    (nin? : Option Nat) (h : args.length ≠ nin?.getD f.ufunc.nin) :
    f.prepare_args args nin? = .error (.runtimeError arityMsg) := by
  simp [FakeUfunc.prepare_args, h]

/-- C1: the injected resolution entry point yields a compatible result (the
configured module, or a fallback adapter when none was configured) if and
only if every operand type is exactly the owner type or a member of the
known-type set; any outside type, wherever it appears, makes the result the
NotImplemented sentinel. -/
theorem c1_resolution_iff (arrtype : ArrClass) (known : List PyType)
    (module? : Option NpModule) (self : ArrInstance) (types : List PyType) :
    ((arrayModuleEntry arrtype known module? self types).isNotImplemented = false
       ↔ ∀ t ∈ types, t = arrtype.ty ∨ t ∈ known)
  ∧ ((∀ t ∈ types, t = arrtype.ty ∨ t ∈ known) →
       arrayModuleEntry arrtype known module? self types =
         (match module? with
          | some m => ResolvedModule.module m
          | none => ResolvedModule.fallback ⟨arrtype.moduleName, self⟩)) := by
  constructor
  · rw [← typesAllKnown_iff arrtype.ty known types]
    by_cases h : typesAllKnown arrtype.ty known types = true
    · simp only [arrayModuleEntry, h, if_true]
      cases module? <;> simp [ResolvedModule.isNotImplemented]
    · simp only [arrayModuleEntry, if_neg h]
      simp [ResolvedModule.isNotImplemented, h]
  · intro h
    have hk : typesAllKnown arrtype.ty known types = true :=
      (typesAllKnown_iff arrtype.ty known types).mpr h
    simp only [arrayModuleEntry, hk, if_true]

/-- Witness for C1 at a concrete compatible tuple. -/
theorem c1_resolution_iff_witness :
    arrayModuleEntry clsA [PyType.ndarray] none instA
        [PyType.userType 0, PyType.ndarray]
      = ResolvedModule.fallback ⟨clsA.moduleName, instA⟩ :=
  (c1_resolution_iff clsA [PyType.ndarray] none instA
    [PyType.userType 0, PyType.ndarray]).2 (by decide)

/-- C2 (code bug): only the `__call__` form reaches the hook captured at
construction time; `reduce`, `accumulate` and `outer` read the attribute
`arrfunc`, which `__init__` never assigned (it assigned `arrufunc`), so all
three raise AttributeError instead of invoking the captured hook. -/
theorem c2_call_forms_hook_bug :
    ((FakeUfunc.make npAdd instA).call [.pyObj 5, .pyObj 6] []
        = .ok (hookU0 ⟨npAdd, "__call__", [PyType.userType 0],
            [.arrObj (.userType 0) 5, .arrObj (.userType 0) 6], []⟩))
  ∧ ((FakeUfunc.make npAdd instA).reduce [.pyObj 5] []
        = .error (.attributeError "arrfunc"))
  ∧ ((FakeUfunc.make npAdd instA).accumulate [.pyObj 5] []
        = .error (.attributeError "arrfunc"))
  ∧ ((FakeUfunc.make npAdd instA).outer [.pyObj 5, .pyObj 6] []
        = .error (.attributeError "arrfunc")) :=
  ⟨rfl, rfl, rfl, rfl⟩

/-- C3 (code bug): the special-cased constructor and coercion operations of
the fallback evaluate `self.__arraytype_`, whose mangled name was never
stored, so the lookup falls into `__getattr__`, misses the default library
namespace, and raises AttributeError instead of re-wrapping the result as
the owner type. -/
theorem c3_rewrap_bug :
    (fb0.array npDefault [.pyObj 3] []
        = .error (.attributeError "_ArrayFunctionFallback__arraytype_"))
  ∧ (fb0.asarray npDefault [.pyObj 3] []
        = .error (.attributeError "_ArrayFunctionFallback__arraytype_")) :=
  ⟨rfl, rfl⟩

/-- C4 counterexample: on the binary ufunc `add`, the `outer` form invoked
with TWO arguments does not raise the arity error (the claim demands
ARITY-ERROR for any count other than one): `outer` checks against the
declared input count 2, accepts both arguments, and then fails on the
unrelated `arrfunc` attribute instead. -/
theorem c4_outer_counterexample :
    ((FakeUfunc.make npAdd instA).outer [.pyObj 1, .pyObj 2] []
        = .error (.attributeError "arrfunc"))
  ∧ ∀ msg, (FakeUfunc.make npAdd instA).outer [.pyObj 1, .pyObj 2] []
        ≠ .error (.runtimeError msg) := by
  refine ⟨rfl, fun msg h => ?_⟩
  rw [show (FakeUfunc.make npAdd instA).outer [.pyObj 1, .pyObj 2] []
        = .error (.attributeError "arrfunc") from rfl] at h
  exact PyErr.noConfusion (Except.error.inj h)

/-- C4 amended: `reduce` and `accumulate` require exactly one positional
argument, while `outer` requires the ufunc's declared input count; a
mismatching count makes each fail with the RuntimeError carrying the arity
message. -/
theorem c4_arity_amended (f : FakeUfunc) (args : List PyVal) (kwargs : KW) :
    (args.length ≠ 1 → f.reduce args kwargs = .error (.runtimeError arityMsg))
  ∧ (args.length ≠ 1 → f.accumulate args kwargs = .error (.runtimeError arityMsg))
  ∧ (args.length ≠ f.ufunc.nin → f.outer args kwargs = .error (.runtimeError arityMsg)) := by
  refine ⟨fun h => ?_, fun h => ?_, fun h => ?_⟩
  · unfold FakeUfunc.reduce
    rw [prepare_args_wrong_count f args (some 1) (by simpa using h)]
    rfl
  · unfold FakeUfunc.accumulate
    rw [prepare_args_wrong_count f args (some 1) (by simpa using h)]
    rfl
  · unfold FakeUfunc.outer
    rw [prepare_args_wrong_count f args none (by simpa using h)]
    rfl

/-- Witness for C4 amended at concrete wrong argument counts. -/
theorem c4_arity_amended_witness :
    ((FakeUfunc.make npAdd instA).reduce [] [] = .error (.runtimeError arityMsg))
  ∧ ((FakeUfunc.make npAdd instA).accumulate [.pyObj 1, .pyObj 2] []
        = .error (.runtimeError arityMsg))
  ∧ ((FakeUfunc.make npAdd instA).outer [.pyObj 1] []
        = .error (.runtimeError arityMsg)) :=
  ⟨(c4_arity_amended (FakeUfunc.make npAdd instA) [] []).1 (by decide),
   (c4_arity_amended (FakeUfunc.make npAdd instA) [.pyObj 1, .pyObj 2] []).2.1 (by decide),
   (c4_arity_amended (FakeUfunc.make npAdd instA) [.pyObj 1] []).2.2 (by decide)⟩

/-- C5: on any fallback, looking up `add` (declared input count 2) yields an
adapter whose `__call__` raises the arity RuntimeError on one argument and,
on two arguments, invokes the captured elementwise hook with call-kind
`__call__`, the one-element type tuple of the owner instance, the two
coerced arguments and the unchanged keyword arguments. -/
theorem c5_fallback_add_arity_and_call (fb : ArrayFunctionFallback)
    (a b c : PyVal) (kwargs : KW) :
    (fb.getattr npDefault "add" = .ok (.fakeUfunc (FakeUfunc.make npAdd fb.selfArr)))
  ∧ ((FakeUfunc.make npAdd fb.selfArr).call [c] kwargs
        = .error (.runtimeError arityMsg))
  ∧ ((FakeUfunc.make npAdd fb.selfArr).call [a, b] kwargs
        = .ok (fb.selfArr.arrayUfunc ⟨npAdd, "__call__", [fb.selfArr.ty],
            [callTypeOn fb.selfArr.ty (npAsarray a),
             callTypeOn fb.selfArr.ty (npAsarray b)], kwargs⟩)) :=
  ⟨rfl, rfl, rfl⟩

/-- C6: `__getattr__` on a fallback raises AttributeError for a name the
default library lacks, wraps a ufunc in a `_FakeUfunc` bound to the owner
instance, wraps a symbol carrying the `_implementation` marker in a
`_BoundFunction` bound to the owner instance, and raises the
unsupported-function AttributeError for anything else. -/
theorem c6_getattr_classification (np : String → Option NpSymbol)
    (fb : ArrayFunctionFallback) (attr : String) :
    (np attr = none → fb.getattr np attr = .error (.attributeError attr))
  ∧ (∀ u, np attr = some (.ufuncSym u) →
       fb.getattr np attr = .ok (.fakeUfunc (FakeUfunc.make u fb.selfArr)))
  ∧ (∀ f, np attr = some (.funcSym f true) →
       fb.getattr np attr = .ok (.boundFunction (BoundFunction.make f fb.selfArr)))
  ∧ (∀ f, np attr = some (.funcSym f false) →
       fb.getattr np attr
         = .error (.attributeError ("unsupported numpy function for " ++ fb.name))) := by
  refine ⟨fun h => ?_, fun u h => ?_, fun f h => ?_, fun f h => ?_⟩ <;>
    simp [ArrayFunctionFallback.getattr, h]

/-- Witness for C6 on a missing name and on a present-but-unclassifiable
symbol of the concrete default namespace. -/
theorem c6_getattr_classification_witness :
    (fb0.getattr npDefault "nosuch" = .error (.attributeError "nosuch"))
  ∧ (fb0.getattr npDefault "newaxis"
        = .error (.attributeError ("unsupported numpy function for " ++ fb0.name))) :=
  ⟨(c6_getattr_classification npDefault fb0 "nosuch").1 rfl,
   (c6_getattr_classification npDefault fb0 "newaxis").2.2.2 ⟨"newaxis"⟩ rfl⟩

/-- C7: without a module, `inject_array_module` raises ValueError when the
owner type lacks either capability hook, and nothing is installed; with both
hooks present, or with a module supplied, the resolution entry point is
installed. -/
theorem c7_inject_hook_preconditions (arrtype : ArrClass) (known : List PyType) :
    ((arrtype.hasArrayUfunc = false ∨ arrtype.hasArrayFunction = false) →
       ∃ msg, inject_array_module arrtype known none = .error (.valueError msg))
  ∧ (arrtype.hasArrayUfunc = true → arrtype.hasArrayFunction = true →
       inject_array_module arrtype known none
         = .ok (arrayModuleEntry arrtype known none))
  ∧ (∀ m, inject_array_module arrtype known (some m)
         = .ok (arrayModuleEntry arrtype known (some m))) := by
  refine ⟨fun h => ?_, fun h1 h2 => ?_, fun m => rfl⟩
  · rcases h with h | h
    · exact ⟨"Array type must support __array_ufunc__",
        by simp [inject_array_module, h]⟩
    · by_cases h1 : arrtype.hasArrayUfunc = false
      · exact ⟨"Array type must support __array_ufunc__",
          by simp [inject_array_module, h1]⟩
      · exact ⟨"Array type must support __array_function__",
          by simp [inject_array_module, h1, h]⟩
  · simp [inject_array_module, h1, h2]

/-- Witness for C7 on a concrete type lacking the elementwise hook. -/
theorem c7_inject_hook_preconditions_witness :
    ∃ msg, inject_array_module clsNoUfunc [] none
      = Except.error (PyErr.valueError msg) :=
  (c7_inject_hook_preconditions clsNoUfunc []).1 (Or.inl rfl)

/-- C8: the compatible-versus-NotImplemented classification of the injected
entry point is a pure function of the owner type, the registration-time
known-type set and the operand type tuple: it does not depend on the calling
instance nor on the configured module, and equal inputs give equal
classifications. -/
theorem c8_resolution_pure (arrtype : ArrClass) (known : List PyType)
    (module? : Option NpModule) (self : ArrInstance) (types : List PyType) :
    ((arrayModuleEntry arrtype known module? self types).isNotImplemented
        = !typesAllKnown arrtype.ty known types)
  ∧ ∀ (self2 : ArrInstance) (module2 : Option NpModule),
      (arrayModuleEntry arrtype known module? self types).isNotImplemented
        = (arrayModuleEntry arrtype known module2 self2 types).isNotImplemented := by
  have key : ∀ (m : Option NpModule) (s : ArrInstance),
      (arrayModuleEntry arrtype known m s types).isNotImplemented
        = !typesAllKnown arrtype.ty known types := by
    intro m s
    by_cases h : typesAllKnown arrtype.ty known types = true
    · simp only [arrayModuleEntry, h, if_true]
      cases m <;> simp [ResolvedModule.isNotImplemented]
    · simp only [arrayModuleEntry, if_neg h]
      simp [ResolvedModule.isNotImplemented,
        Bool.eq_false_iff.mpr h]
  exact ⟨key module? self, fun self2 module2 => by rw [key, key]⟩

/-- C9: a `_BoundFunction` delegates every call, unconditionally and
totally, to the function-dispatch hook captured from the owner instance at
construction time, passing the function reference, the one-element type
tuple of the owner instance, and the arguments and keyword arguments
unchanged. -/
theorem c9_bound_function_delegates (fn : NpFunc) (arrself : ArrInstance)
    (args : List PyVal) (kwargs : KW) :
    (BoundFunction.make fn arrself).call args kwargs
      = arrself.arrayFunction ⟨fn, [arrself.ty], args, kwargs⟩ := rfl

/-- C10: any entry point successfully installed by `inject_array_module`,
invoked with the empty operand type tuple, classifies it as compatible and
returns the configured module, or a fresh fallback bound to the calling
instance when no module was configured; it never returns NotImplemented. -/
theorem c10_empty_tuple_compatible (arrtype : ArrClass) (known : List PyType)
    (module? : Option NpModule)
    (entry : ArrInstance → List PyType → ResolvedModule) (self : ArrInstance)
    (h : inject_array_module arrtype known module? = .ok entry) :
    ((entry self []).isNotImplemented = false)
  ∧ entry self [] = (match module? with
      | some m => ResolvedModule.module m
      | none => ResolvedModule.fallback ⟨arrtype.moduleName, self⟩) := by
  cases module? with
  | some m =>
    simp only [inject_array_module, Except.ok.injEq] at h
    subst h
    exact ⟨rfl, rfl⟩
  | none =>
    simp only [inject_array_module] at h
    split at h
    · exact Except.noConfusion h
    · split at h
      · exact Except.noConfusion h
      · simp only [Except.ok.injEq] at h
        subst h
        exact ⟨rfl, rfl⟩

/-- Witness for C10 with a hook-complete owner type and no module. -/
theorem c10_empty_tuple_compatible_witness :
    ((arrayModuleEntry clsA [] none instA []).isNotImplemented = false)
  ∧ arrayModuleEntry clsA [] none instA []
      = ResolvedModule.fallback ⟨clsA.moduleName, instA⟩ :=
  c10_empty_tuple_compatible clsA [] none (arrayModuleEntry clsA [] none) instA rfl
